import Mathlib

/-!
Verification of the navigation/consent coordinator of the ReCall app
(frontend/App.js).  The coordinator is shallowly embedded: React state
hooks become fields of an explicit `AppState`, the handler functions
become pure state transformers, and the two asynchronous AsyncStorage
calls are modelled by passing their outcome (`Except` values) as an
argument.  JavaScript values that flow through the duck-typed payload
guards are modelled by the inductive `JSValue`, whose `jsTruthy`
mirrors JavaScript truthiness for the value shapes the code can see.
-/

/-- A JavaScript value as far as the coordinator inspects one: the
payload of `handleOpenConversation` is tested for truthiness, for
`typeof === "string"` and for `typeof === "object"`, and an object
payload is destructured into the five fields read at App.js:69.
Numbers are modelled by `Int` (no NaN arises from the inspected
inputs). -/
inductive JSValue where
  | undef : JSValue
  | null : JSValue
  | bool (b : Bool) : JSValue
  | num (n : Int) : JSValue
  | str (s : String) : JSValue
  | obj (name highlightTimestamp highlightIndex avatarUrl headline : JSValue) : JSValue
deriving DecidableEq, Repr

/-- JavaScript truthiness (`!v` is `!jsTruthy v`): undefined, null,
false, 0 and the empty string are falsy; objects are always truthy. -/
def jsTruthy : JSValue → Bool
  | JSValue.undef => false
  | JSValue.null => false
  | JSValue.bool b => b
  | JSValue.num n => n != 0
  | JSValue.str s => s != ""
  | JSValue.obj _ _ _ _ _ => true

/-- `typeof v === "object"` — true for objects and (a JavaScript quirk)
for null. -/
def isObjectType : JSValue → Bool
  | JSValue.null => true
  | JSValue.obj _ _ _ _ _ => true
  | _ => false

/-- The conversation target built at App.js:73-79 from the destructured
payload fields. -/
structure ConversationTarget where
  name : JSValue
  highlightTimestamp : JSValue
  highlightIndex : JSValue
  avatarUrl : JSValue
  headline : JSValue
deriving DecidableEq, Repr

/-- The six `useState` hooks of `App` (App.js:27-32), as one record.
`activeTab` is kept as a raw `JSValue` because `handleNavigateTab`
stores whatever truthy value it receives. -/
structure AppState where
  activeTab : JSValue
  activeConversation : Option ConversationTarget
  hasAcceptedAgreement : Bool
  isCheckingAgreement : Bool
  agreementChecked : Bool
  isRetroTheme : Bool
deriving DecidableEq, Repr

/-- The initial hook values of App.js:27-32. -/
def initialAppState : AppState :=
  { activeTab := JSValue.str "home"
    activeConversation := none
    hasAcceptedAgreement := false
    isCheckingAgreement := true
    agreementChecked := false
    isRetroTheme := false }

/-- The fixed AsyncStorage key (App.js:24). -/
def AGREEMENT_STORAGE_KEY : String := "upload_agreement_accepted_v1"

/-- The outcome of `AsyncStorage.getItem`: a stored string, absence
(null), or a rejected promise. -/
abbrev ReadResult := Except Unit (Option String)

/-- A consent store, as seen through `getItem`: each key reads to some
outcome. -/
abbrev Store := String → ReadResult

/-- `checkAgreementStatus` (App.js:35-48) applied to the outcome of the
`getItem` call: the try-block sets `hasAcceptedAgreement` only when the
stored value is exactly the string "true"; the catch-block only logs;
the finally-block sets `isCheckingAgreement` to false on every path. -/
def checkAgreementStatus (readResult : ReadResult) (s : AppState) : AppState :=
  let afterTry :=
    match readResult with
    | Except.ok (some storedValue) =>
        if storedValue = "true" then { s with hasAcceptedAgreement := true } else s
    | Except.ok none => s
    | Except.error _ => s
  { afterTry with isCheckingAgreement := false }

/-- The mount-time effect (App.js:34-51): read the fixed key from the
store and run `checkAgreementStatus` on the outcome. -/
def runAgreementCheck (store : Store) (s : AppState) : AppState :=
  checkAgreementStatus (store AGREEMENT_STORAGE_KEY) s

/-- `handleAcceptAgreement` (App.js:53-60) applied to the outcome of the
`setItem` call: on success `hasAcceptedAgreement` becomes true; a
rejected write is caught, only logged, and changes nothing. -/
def handleAcceptAgreement (writeResult : Except Unit Unit) (s : AppState) : AppState :=
  match writeResult with
  | Except.ok _ => { s with hasAcceptedAgreement := true }
  | Except.error _ => s

/-- `handleOpenConversation` (App.js:62-81): return unless the payload
is truthy; wrap a string payload as an object with that name; return
unless the normalized payload is a truthy object; destructure it and
return unless `name` is truthy; otherwise store the conversation target
and force the memory tab. -/
def handleOpenConversation (payload : JSValue) (s : AppState) : AppState :=
  if !jsTruthy payload then s
  else
    let normalizedPayload :=
      match payload with
      | JSValue.str v =>
          JSValue.obj (JSValue.str v) JSValue.undef JSValue.undef JSValue.undef JSValue.undef
      | p => p
    if !jsTruthy normalizedPayload || !isObjectType normalizedPayload then s
    else
      match normalizedPayload with
      | JSValue.obj name highlightTimestamp highlightIndex avatarUrl headline =>
          if !jsTruthy name then s
          else
            { s with
              activeConversation :=
                some { name := name
                       highlightTimestamp := highlightTimestamp
                       highlightIndex := highlightIndex
                       avatarUrl := avatarUrl
                       headline := headline }
              activeTab := JSValue.str "memory" }
      | _ => s

/-- `handleNavigateTab` (App.js:83-87): return if the tab is falsy,
otherwise clear the conversation then store the tab. -/
def handleNavigateTab (tab : JSValue) (s : AppState) : AppState :=
  if !jsTruthy tab then s
  else
    let cleared := { s with activeConversation := none }
    { cleared with activeTab := tab }

/-- `handleToggleTheme` (App.js:89-91): flip the retro-theme flag. -/
def handleToggleTheme (s : AppState) : AppState :=
  { s with isRetroTheme := !s.isRetroTheme }

/-- The `onBack` callback of the conversation screens (App.js:166,175):
clear the conversation. -/
def closeConversation (s : AppState) : AppState :=
  { s with activeConversation := none }

/-! ## Rendering rule -/

/-- The three top-level renders of `App` (App.js:93-153): the loading
view while `isCheckingAgreement`, the consent form while not accepted,
and the main navigation view otherwise. -/
inductive RootView where
  | loading : RootView
  | consent : RootView
  | main : RootView
deriving DecidableEq, Repr

/-- The top-level rendering rule (App.js:93, 104, 155). -/
def rootView (s : AppState) : RootView :=
  if s.isCheckingAgreement then RootView.loading
  else if !s.hasAcceptedAgreement then RootView.consent
  else RootView.main

/-- The four tab identifiers of the bottom navigation. -/
inductive Tab where
  | home : Tab
  | upload : Tab
  | highlights : Tab
  | memory : Tab
deriving DecidableEq, Repr

/-- The string identifier each tab button passes around. -/
def tabKey : Tab → String
  | Tab.home => "home"
  | Tab.upload => "upload"
  | Tab.highlights => "highlights"
  | Tab.memory => "memory"

/-- Whether the conversation screen is rendered: the main view renders
it exactly when `activeConversation` is truthy (App.js:158). -/
def conversationViewRendered (s : AppState) : Bool :=
  s.activeConversation.isSome

/-- Whether the screen of tab `t` is rendered: only in the else-branch
of the `activeConversation` conditional, and only when `activeTab`
equals the tab key (App.js:178-214). -/
def tabScreenRendered (s : AppState) (t : Tab) : Bool :=
  !s.activeConversation.isSome && s.activeTab == JSValue.str (tabKey t)

/-! ## Event systems

For the sequence-quantified claims we close the handlers under event
lists.  `NavEvent` covers the two operations of the mutual-exclusivity
invariant, with `navigateTab` carrying one of the four enumerated
identifiers from the screen callback interface; `AppEvent` covers every
exposed operation, with raw `JSValue` arguments. -/

inductive NavEvent where
  | openConversation (payload : JSValue) : NavEvent
  | navigateTab (tab : Tab) : NavEvent

def navStep (e : NavEvent) (s : AppState) : AppState :=
  match e with
  | NavEvent.openConversation payload => handleOpenConversation payload s
  | NavEvent.navigateTab tab => handleNavigateTab (JSValue.str (tabKey tab)) s

def runNav : List NavEvent → AppState → AppState
  | [], s => s
  | e :: es, s => runNav es (navStep e s)

inductive AppEvent where
  | check (readResult : ReadResult) : AppEvent
  | accept (writeResult : Except Unit Unit) : AppEvent
  | openConversation (payload : JSValue) : AppEvent
  | navigateTab (tab : JSValue) : AppEvent
  | closeConversation : AppEvent
  | toggleTheme : AppEvent

def appStep (e : AppEvent) (s : AppState) : AppState :=
  match e with
  | AppEvent.check readResult => checkAgreementStatus readResult s
  | AppEvent.accept writeResult => handleAcceptAgreement writeResult s
  | AppEvent.openConversation payload => handleOpenConversation payload s
  | AppEvent.navigateTab tab => handleNavigateTab tab s
  | AppEvent.closeConversation => closeConversation s
  | AppEvent.toggleTheme => handleToggleTheme s

def runApp : List AppEvent → AppState → AppState
  | [], s => s
  | e :: es, s => runApp es (appStep e s)

/-! ## Setter-call trace of the agreement check

To state that `isCheckingAgreement` is written exactly once per check,
`checkAgreementStatus` is re-read as the list of state-setter calls the
function issues along each control path (try, catch, finally). -/

inductive StateCall where
  | setHasAcceptedAgreement (b : Bool) : StateCall
  | setIsCheckingAgreement (b : Bool) : StateCall
deriving DecidableEq, Repr

/-- The setter calls issued by `checkAgreementStatus` (App.js:35-48) on
each read outcome: the try-block conditionally sets the acceptance
flag, the catch-block issues no setter, and the finally-block always
sets `isCheckingAgreement` to false last. -/
def checkAgreementStatusCalls (readResult : ReadResult) : List StateCall :=
  match readResult with
  | Except.ok (some storedValue) =>
      (if storedValue = "true" then [StateCall.setHasAcceptedAgreement true] else [])
        ++ [StateCall.setIsCheckingAgreement false]
  | Except.ok none => [StateCall.setIsCheckingAgreement false]
  | Except.error _ => [StateCall.setIsCheckingAgreement false]

def applyCall (s : AppState) : StateCall → AppState
  | StateCall.setHasAcceptedAgreement b => { s with hasAcceptedAgreement := b }
  | StateCall.setIsCheckingAgreement b => { s with isCheckingAgreement := b }

def applyCalls (calls : List StateCall) (s : AppState) : AppState :=
  calls.foldl applyCall s

def isSetIsChecking : StateCall → Bool
  | StateCall.setIsCheckingAgreement _ => true
  | _ => false

/-- The name a payload resolves to under the guards of
`handleOpenConversation`: a non-empty string payload resolves to
itself, an object payload resolves to its truthy name, everything else
resolves to nothing. -/
def resolvedName : JSValue → Option JSValue
  | JSValue.str v => if v = "" then none else some (JSValue.str v)
  | JSValue.obj name _ _ _ _ => if jsTruthy name then some name else none
  | _ => none

/-! ## Helper lemmas -/

instance exceptDecEq {ε α : Type} [DecidableEq ε] [DecidableEq α] :
    DecidableEq (Except ε α)
  | Except.ok a, Except.ok b =>
      if h : a = b then isTrue (by rw [h])
      else isFalse (fun hc => h (Except.ok.inj hc))
  | Except.ok _, Except.error _ => isFalse (fun hc => Except.noConfusion hc)
  | Except.error _, Except.ok _ => isFalse (fun hc => Except.noConfusion hc)
  | Except.error d, Except.error e =>
      if h : d = e then isTrue (by rw [h])
      else isFalse (fun hc => h (Except.error.inj hc))

@[simp] theorem jsTruthy_obj (a b c d e : JSValue) :
    jsTruthy (JSValue.obj a b c d e) = true := rfl

@[simp] theorem jsTruthy_str (v : String) : jsTruthy (JSValue.str v) = (v != "") := rfl

@[simp] theorem jsTruthy_num (n : Int) : jsTruthy (JSValue.num n) = (n != 0) := rfl

@[simp] theorem jsTruthy_bool (b : Bool) : jsTruthy (JSValue.bool b) = b := rfl

@[simp] theorem isObjectType_obj (a b c d e : JSValue) :
    isObjectType (JSValue.obj a b c d e) = true := rfl

theorem handleOpenConversation_obj (name hts hidx av hl : JSValue) (s : AppState) :
    handleOpenConversation (JSValue.obj name hts hidx av hl) s
      = if jsTruthy name then
          { s with
            activeConversation := some ⟨name, hts, hidx, av, hl⟩
            activeTab := JSValue.str "memory" }
        else s := by
  by_cases h : jsTruthy name <;>
    simp [handleOpenConversation, h]

theorem handleOpenConversation_str (v : String) (s : AppState) :
    handleOpenConversation (JSValue.str v) s
      = if v = "" then s
        else
          { s with
            activeConversation :=
              some ⟨JSValue.str v, JSValue.undef, JSValue.undef, JSValue.undef, JSValue.undef⟩
            activeTab := JSValue.str "memory" } := by
  by_cases h : v = "" <;>
    simp [handleOpenConversation, h]

theorem handleOpenConversation_num (n : Int) (s : AppState) :
    handleOpenConversation (JSValue.num n) s = s := by
  by_cases h : n = 0 <;>
    simp [handleOpenConversation, isObjectType, h]

theorem handleOpenConversation_bool (b : Bool) (s : AppState) :
    handleOpenConversation (JSValue.bool b) s = s := by
  cases b <;> simp [handleOpenConversation, isObjectType]

theorem handleOpenConversation_no_name (p : JSValue) (s : AppState)
    (h : resolvedName p = none) : handleOpenConversation p s = s := by
  cases p with
  | undef => rfl
  | null => rfl
  | bool b => exact handleOpenConversation_bool b s
  | num n => exact handleOpenConversation_num n s
  | str v =>
      rw [handleOpenConversation_str]
      simp only [resolvedName, ite_eq_left_iff] at h
      by_cases hv : v = ""
      · simp [hv]
      · exact absurd (h hv).symm (by simp)
  | obj name hts hidx av hl =>
      rw [handleOpenConversation_obj]
      simp only [resolvedName] at h
      by_cases hn : jsTruthy name
      · simp [hn] at h
      · simp [hn]

theorem handleOpenConversation_cases (p : JSValue) (s : AppState) :
    handleOpenConversation p s = s
      ∨ ∃ t : ConversationTarget,
          handleOpenConversation p s
            = { s with activeConversation := some t, activeTab := JSValue.str "memory" } := by
  cases p with
  | undef => exact Or.inl rfl
  | null => exact Or.inl rfl
  | bool b => exact Or.inl (handleOpenConversation_bool b s)
  | num n => exact Or.inl (handleOpenConversation_num n s)
  | str v =>
      rw [handleOpenConversation_str]
      by_cases hv : v = ""
      · simp [hv]
      · refine Or.inr
          ⟨⟨JSValue.str v, JSValue.undef, JSValue.undef, JSValue.undef, JSValue.undef⟩, ?_⟩
        simp [hv]
  | obj name hts hidx av hl =>
      rw [handleOpenConversation_obj]
      by_cases hn : jsTruthy name
      · exact Or.inr ⟨⟨name, hts, hidx, av, hl⟩, by simp [hn]⟩
      · simp [hn]


/-! ## Claim theorems -/

/-- C2: fail-closed consent check.  `checkAgreementStatus` sets
`hasAcceptedAgreement` exactly when the value read from the store under
the fixed key is the string "true"; on any other outcome (absence, any
other string, or a read that throws) the flag stays false and the
consent screen is rendered. -/
theorem checkAgreementStatus_fail_closed (store : Store) :
    ((runAgreementCheck store initialAppState).hasAcceptedAgreement
        = decide (store AGREEMENT_STORAGE_KEY = Except.ok (some "true")))
      ∧ rootView (runAgreementCheck store initialAppState)
        = (if store AGREEMENT_STORAGE_KEY = Except.ok (some "true") then RootView.main
           else RootView.consent) := by
  rcases h : store AGREEMENT_STORAGE_KEY with e | v
  · simp [runAgreementCheck, checkAgreementStatus, rootView, initialAppState, h]
  · rcases v with _ | sv
    · simp [runAgreementCheck, checkAgreementStatus, rootView, initialAppState, h]
    · by_cases hv : sv = "true" <;>
        simp [runAgreementCheck, checkAgreementStatus, rootView, initialAppState, h, hv]

/-- C3 counterexample: the claim says a truthy tab value outside the
four enumerated identifiers is a no-op, but `handleNavigateTab` only
tests truthiness, so the string "bogus" is stored as the active tab and
the state changes. -/
theorem handleNavigateTab_unrecognized_not_noop :
    handleNavigateTab (JSValue.str "bogus") initialAppState ≠ initialAppState
      ∧ (handleNavigateTab (JSValue.str "bogus") initialAppState).activeTab
        = JSValue.str "bogus" := by
  constructor
  · decide
  · decide

/-- C3 (amended): if the tab argument is falsy `handleNavigateTab`
leaves every piece of state unchanged; for any truthy tab value —
recognized or not — it clears `activeConversation` and stores the given
value as `activeTab`, touching nothing else. -/
theorem handleNavigateTab_guard (tab : JSValue) (s : AppState) :
    (handleNavigateTab tab s).activeTab = (if jsTruthy tab then tab else s.activeTab)
      ∧ (handleNavigateTab tab s).activeConversation
        = (if jsTruthy tab then none else s.activeConversation)
      ∧ (handleNavigateTab tab s).hasAcceptedAgreement = s.hasAcceptedAgreement
      ∧ (handleNavigateTab tab s).isCheckingAgreement = s.isCheckingAgreement
      ∧ (handleNavigateTab tab s).agreementChecked = s.agreementChecked
      ∧ (handleNavigateTab tab s).isRetroTheme = s.isRetroTheme := by
  by_cases h : jsTruthy tab <;> simp [handleNavigateTab, h]

/-- C4: acceptance atomicity.  `handleAcceptAgreement` sets
`hasAcceptedAgreement` exactly when the store write succeeded; a failed
write is swallowed and leaves the whole state unchanged. -/
theorem handleAcceptAgreement_atomic (writeResult : Except Unit Unit) (s : AppState) :
    handleAcceptAgreement writeResult s
        = (if writeResult = Except.ok () then { s with hasAcceptedAgreement := true } else s)
      ∧ handleAcceptAgreement (Except.error ()) s = s := by
  constructor
  · rcases writeResult with e | u
    · cases e; simp [handleAcceptAgreement]
    · cases u; simp [handleAcceptAgreement]
  · rfl

/-- C8: theme independence.  `handleToggleTheme` changes only the
theme flag, and toggling twice restores the full state. -/
theorem handleToggleTheme_frame (s : AppState) :
    (handleToggleTheme s).activeTab = s.activeTab
      ∧ (handleToggleTheme s).activeConversation = s.activeConversation
      ∧ (handleToggleTheme s).hasAcceptedAgreement = s.hasAcceptedAgreement
      ∧ (handleToggleTheme s).isCheckingAgreement = s.isCheckingAgreement
      ∧ (handleToggleTheme s).agreementChecked = s.agreementChecked
      ∧ (handleToggleTheme s).isRetroTheme = !s.isRetroTheme
      ∧ handleToggleTheme (handleToggleTheme s) = s := by
  simp [handleToggleTheme]

/-- The state the tab-forcing example starts from: the upload tab is
active and no conversation is open. -/
def uploadTabState : AppState :=
  { initialAppState with activeTab := JSValue.str "upload" }

/-- C5: tab-forcing on open.  For any non-empty name — given bare or
inside an object with arbitrary optional fields — and from any prior
state, `handleOpenConversation` stores the normalized target and forces
the memory tab; in particular opening Alex from the upload tab lands on
the memory tab with the conversation named Alex. -/
theorem handleOpenConversation_forces_memory (n : String) (hts hidx av hl : JSValue)
    (s : AppState) (h : n ≠ "") :
    (handleOpenConversation (JSValue.str n) s).activeTab = JSValue.str "memory"
      ∧ (handleOpenConversation (JSValue.str n) s).activeConversation
        = some ⟨JSValue.str n, JSValue.undef, JSValue.undef, JSValue.undef, JSValue.undef⟩
      ∧ (handleOpenConversation (JSValue.obj (JSValue.str n) hts hidx av hl) s).activeTab
        = JSValue.str "memory"
      ∧ (handleOpenConversation (JSValue.obj (JSValue.str n) hts hidx av hl) s).activeConversation
        = some ⟨JSValue.str n, hts, hidx, av, hl⟩
      ∧ (handleOpenConversation
          (JSValue.obj (JSValue.str "Alex") JSValue.undef JSValue.undef JSValue.undef JSValue.undef)
          uploadTabState).activeTab = JSValue.str "memory"
      ∧ (handleOpenConversation
          (JSValue.obj (JSValue.str "Alex") JSValue.undef JSValue.undef JSValue.undef JSValue.undef)
          uploadTabState).activeConversation
        = some ⟨JSValue.str "Alex", JSValue.undef, JSValue.undef, JSValue.undef, JSValue.undef⟩ := by
  rw [handleOpenConversation_str, handleOpenConversation_obj]
  refine ⟨?_, ?_, ?_, ?_, by decide, by decide⟩ <;> simp [h]

/-- C5 witness: instantiated at the name Alex from the initial state. -/
theorem handleOpenConversation_forces_memory_witness :
    ("Alex" : String) ≠ ""
      ∧ (handleOpenConversation (JSValue.str "Alex") initialAppState).activeTab
        = JSValue.str "memory" :=
  ⟨by decide,
   (handleOpenConversation_forces_memory "Alex" JSValue.undef JSValue.undef JSValue.undef
      JSValue.undef initialAppState (by decide)).1⟩

/-- C6: malformed-payload guard.  Any payload that resolves to no
truthy name — null, undefined, the empty string, an empty object, or an
object carrying only a highlight index — leaves the whole state (tab,
conversation and theme flag included) unchanged. -/
theorem handleOpenConversation_malformed_noop (p : JSValue) (s : AppState)
    (h : resolvedName p = none) :
    handleOpenConversation p s = s
      ∧ resolvedName JSValue.null = none
      ∧ resolvedName JSValue.undef = none
      ∧ resolvedName (JSValue.str "") = none
      ∧ resolvedName
          (JSValue.obj JSValue.undef JSValue.undef JSValue.undef JSValue.undef JSValue.undef)
        = none
      ∧ resolvedName
          (JSValue.obj JSValue.undef JSValue.undef (JSValue.num 2) JSValue.undef JSValue.undef)
        = none :=
  ⟨handleOpenConversation_no_name p s h, by decide, by decide, by decide, by decide, by decide⟩

/-- C6 witness: the payload holding only a highlight index, applied to
the initial state. -/
theorem handleOpenConversation_malformed_noop_witness :
    resolvedName
        (JSValue.obj JSValue.undef JSValue.undef (JSValue.num 2) JSValue.undef JSValue.undef)
      = none
      ∧ handleOpenConversation
          (JSValue.obj JSValue.undef JSValue.undef (JSValue.num 2) JSValue.undef JSValue.undef)
          initialAppState
        = initialAppState :=
  ⟨by decide,
   (handleOpenConversation_malformed_noop
      (JSValue.obj JSValue.undef JSValue.undef (JSValue.num 2) JSValue.undef JSValue.undef)
      initialAppState (by decide)).1⟩

/-- C10: the name guard checks only truthiness.  For an object payload,
`handleOpenConversation` accepts exactly the truthy names of any type —
in particular the number 5 — storing the non-string name verbatim and
forcing the memory tab, while every falsy name is rejected. -/
theorem handleOpenConversation_name_truthiness (name hts hidx av hl : JSValue) (s : AppState) :
    handleOpenConversation (JSValue.obj name hts hidx av hl) s
        = (if jsTruthy name then
            { s with
              activeConversation := some ⟨name, hts, hidx, av, hl⟩
              activeTab := JSValue.str "memory" }
           else s)
      ∧ jsTruthy (JSValue.num 5) = true
      ∧ (handleOpenConversation
          (JSValue.obj (JSValue.num 5) JSValue.undef JSValue.undef JSValue.undef JSValue.undef)
          s).activeConversation
        = some ⟨JSValue.num 5, JSValue.undef, JSValue.undef, JSValue.undef, JSValue.undef⟩
      ∧ (handleOpenConversation
          (JSValue.obj (JSValue.num 5) JSValue.undef JSValue.undef JSValue.undef JSValue.undef)
          s).activeTab = JSValue.str "memory" := by
  refine ⟨handleOpenConversation_obj name hts hidx av hl s, by decide, ?_, ?_⟩ <;>
    rw [handleOpenConversation_obj] <;> simp

/-- C7: the check always terminates the loading state.  On every read
outcome the setter trace of `checkAgreementStatus` writes
`isCheckingAgreement` exactly once, as its final call, with the value
false; the trace agrees with the state function, whose result always
has `isCheckingAgreement = false`. -/
theorem checkAgreementStatus_terminates_loading (readResult : ReadResult) (s : AppState) :
    (checkAgreementStatusCalls readResult).filter isSetIsChecking
        = [StateCall.setIsCheckingAgreement false]
      ∧ (checkAgreementStatusCalls readResult).getLast?
        = some (StateCall.setIsCheckingAgreement false)
      ∧ applyCalls (checkAgreementStatusCalls readResult) s = checkAgreementStatus readResult s
      ∧ (checkAgreementStatus readResult s).isCheckingAgreement = false := by
  rcases readResult with e | v
  · cases e
    simp [checkAgreementStatusCalls, applyCalls, applyCall, checkAgreementStatus, isSetIsChecking]
  · rcases v with _ | sv
    · simp [checkAgreementStatusCalls, applyCalls, applyCall, checkAgreementStatus,
        isSetIsChecking]
    · by_cases hv : sv = "true" <;>
        simp [checkAgreementStatusCalls, applyCalls, applyCall, checkAgreementStatus,
          isSetIsChecking, hv]

theorem handleOpenConversation_hasAccepted (p : JSValue) (s : AppState) :
    (handleOpenConversation p s).hasAcceptedAgreement = s.hasAcceptedAgreement := by
  rcases handleOpenConversation_cases p s with heq | ⟨t, heq⟩ <;> rw [heq]

theorem handleNavigateTab_hasAccepted (tab : JSValue) (s : AppState) :
    (handleNavigateTab tab s).hasAcceptedAgreement = s.hasAcceptedAgreement :=
  (handleNavigateTab_guard tab s).2.2.1

theorem appStep_hasAccepted (e : AppEvent) (s : AppState)
    (h : s.hasAcceptedAgreement = true) : (appStep e s).hasAcceptedAgreement = true := by
  cases e with
  | check readResult =>
      rcases readResult with u | v
      · simp [appStep, checkAgreementStatus, h]
      · rcases v with _ | sv
        · simp [appStep, checkAgreementStatus, h]
        · by_cases hv : sv = "true" <;> simp [appStep, checkAgreementStatus, hv, h]
  | accept writeResult =>
      rcases writeResult with u | v <;> simp [appStep, handleAcceptAgreement, h]
  | openConversation payload =>
      rw [appStep, handleOpenConversation_hasAccepted]; exact h
  | navigateTab tab =>
      rw [appStep, handleNavigateTab_hasAccepted]; exact h
  | closeConversation => simpa [appStep, closeConversation] using h
  | toggleTheme => simpa [appStep, handleToggleTheme] using h

/-- C9: acceptance is irreversible within a session.  Under any
sequence of the exposed operations, a state with
`hasAcceptedAgreement = true` never transitions back to false. -/
theorem hasAccepted_irreversible (es : List AppEvent) (s : AppState)
    (h : s.hasAcceptedAgreement = true) :
    (runApp es s).hasAcceptedAgreement = true := by
  induction es generalizing s with
  | nil => exact h
  | cons e es ih => exact ih (appStep e s) (appStep_hasAccepted e s h)

/-- The accepted state the C9 witness runs from. -/
def acceptedAppState : AppState :=
  { initialAppState with hasAcceptedAgreement := true, isCheckingAgreement := false }

/-- C9 witness: a concrete event sequence (failed re-check, failed
write, navigation, close, theme toggle) keeps acceptance. -/
theorem hasAccepted_irreversible_witness :
    acceptedAppState.hasAcceptedAgreement = true
      ∧ (runApp
          [AppEvent.check (Except.error ()), AppEvent.accept (Except.error ()),
           AppEvent.openConversation (JSValue.str "Alex"),
           AppEvent.navigateTab (JSValue.str "upload"), AppEvent.closeConversation,
           AppEvent.toggleTheme]
          acceptedAppState).hasAcceptedAgreement = true :=
  ⟨rfl,
   hasAccepted_irreversible
     [AppEvent.check (Except.error ()), AppEvent.accept (Except.error ()),
      AppEvent.openConversation (JSValue.str "Alex"),
      AppEvent.navigateTab (JSValue.str "upload"), AppEvent.closeConversation,
      AppEvent.toggleTheme]
     acceptedAppState rfl⟩

/-- Reachability invariant for the navigation events: the active tab is
always one of the four enumerated identifiers. -/
def validActiveTab (s : AppState) : Prop :=
  ∃ t : Tab, s.activeTab = JSValue.str (tabKey t)

theorem navStep_validTab (e : NavEvent) (s : AppState)
    (h : validActiveTab s) : validActiveTab (navStep e s) := by
  cases e with
  | openConversation payload =>
      rcases handleOpenConversation_cases payload s with heq | ⟨t, heq⟩
      · rw [navStep, heq]; exact h
      · exact ⟨Tab.memory, by rw [navStep, heq]; rfl⟩
  | navigateTab tab =>
      refine ⟨tab, ?_⟩
      have htr : jsTruthy (JSValue.str (tabKey tab)) = true := by cases tab <;> decide
      simp [navStep, handleNavigateTab, htr]

theorem runNav_validTab (es : List NavEvent) (s : AppState)
    (h : validActiveTab s) : validActiveTab (runNav es s) := by
  induction es generalizing s with
  | nil => exact h
  | cons e es ih => exact ih (navStep e s) (navStep_validTab e s h)

/-- C1: mutual exclusivity invariant.  After any sequence of
`openConversation` and `navigateTab` calls from the initial state, no
tab screen is ever rendered together with the conversation screen;
when a conversation is open only the conversation view renders, and
when none is open exactly the screen of the active tab renders. -/
theorem mutual_exclusivity_invariant (es : List NavEvent) :
    (∀ t : Tab,
        ¬(conversationViewRendered (runNav es initialAppState) = true
          ∧ tabScreenRendered (runNav es initialAppState) t = true))
      ∧ ((runNav es initialAppState).activeConversation.isSome = true
          → conversationViewRendered (runNav es initialAppState) = true
            ∧ ∀ t : Tab, tabScreenRendered (runNav es initialAppState) t = false)
      ∧ ((runNav es initialAppState).activeConversation = none
          → conversationViewRendered (runNav es initialAppState) = false
            ∧ ∃ t : Tab,
                (runNav es initialAppState).activeTab = JSValue.str (tabKey t)
                  ∧ ∀ u : Tab,
                      tabScreenRendered (runNav es initialAppState) u = decide (u = t)) := by
  obtain ⟨t, ht⟩ :=
    runNav_validTab es initialAppState ⟨Tab.home, rfl⟩
  refine ⟨?_, ?_, ?_⟩
  · rintro u ⟨hc, hr⟩
    simp only [conversationViewRendered] at hc
    simp [tabScreenRendered, hc] at hr
  · intro hsome
    refine ⟨hsome, fun u => ?_⟩
    simp [tabScreenRendered, hsome]
  · intro hnone
    refine ⟨by simp [conversationViewRendered, hnone], t, ht, fun u => ?_⟩
    cases u <;> cases t <;>
      simp_all [tabScreenRendered, tabKey, conversationViewRendered]

/-- C1 witness: after opening the Alex conversation, the conversation
view renders and the memory tab screen does not. -/
theorem mutual_exclusivity_invariant_witness :
    tabScreenRendered
        (runNav [NavEvent.openConversation (JSValue.str "Alex")] initialAppState) Tab.memory
      = false :=
  ((mutual_exclusivity_invariant [NavEvent.openConversation (JSValue.str "Alex")]).2.1
      (by decide)).2 Tab.memory
